import Mathlib

/-!
# Verification of the PDF test-fixture generators

This file gives a shallow embedding of the byte-emitting logic of the
four fixture generators in `e2e-tests/scripts/`:

* `generate_lorem_pdf.py` (`generate_lorem_text`, `create_pdf_with_text`, `main`),
* `generate_large_pdf_binary.py` (`create_large_pdf_binary`, `main`),
* `generate_corrupted_pdf.py` (`generate_truncated_pdf`,
  `generate_unsupported_encryption_pdf`, `main`),
* `generate_multipage_test_pdf.py` (`generate_page_content`, `create_pdf`, `main`).

The Python scripts open one output handle and write it front to back; each
`f.write(...)` call is modelled as one chunk (a Lean `String`), and the emitted
file is the concatenation of the chunks in write order.  `f.tell()` at any point
equals the total UTF-8 byte size of the chunks already written, so recorded
object offsets are modelled as byte-size prefix sums of the chunk list.
Python writes `str.encode()` (UTF-8), hence `String.utf8ByteSize` is the exact
byte count of a chunk.
-/

set_option maxRecDepth 40000
set_option maxHeartbeats 1600000

namespace PdfGen

/-! ## Byte-size bookkeeping -/

/-- Byte length of a chunk, as counted by `f.tell()` after writing
its UTF-8 encoding. -/
def bsize (s : String) : Nat := s.utf8ByteSize

/-- Total byte length of a list of chunks. -/
def chunksSize (l : List String) : Nat := (l.map bsize).sum

theorem bsize_append (a b : String) : bsize (a ++ b) = bsize a + bsize b := by
  cases a with
  | mk da =>
    cases b with
    | mk db =>
      show String.utf8ByteSize _ = _
      rw [show (String.mk da ++ String.mk db) = String.mk (da ++ db) from rfl]
      simp [String.utf8ByteSize_mk, bsize]

theorem join_nil : String.join ([] : List String) = "" := rfl

theorem foldl_append_shift (l : List String) :
    ∀ s : String, l.foldl (fun r t => r ++ t) s = s ++ l.foldl (fun r t => r ++ t) "" := by
  induction l with
  | nil => intro s; simp [List.foldl]
  | cons a l ih =>
    intro s
    simp only [List.foldl]
    rw [ih (s ++ a), ih ("" ++ a)]
    rw [show ("" ++ a : String) = a from by simp, String.append_assoc]

theorem join_cons (s : String) (l : List String) :
    String.join (s :: l) = s ++ String.join l := by
  show List.foldl _ _ _ = _
  simp only [List.foldl]
  rw [foldl_append_shift]
  simp [String.join]

theorem join_append (l₁ l₂ : List String) :
    String.join (l₁ ++ l₂) = String.join l₁ ++ String.join l₂ := by
  induction l₁ with
  | nil => simp [join_nil]
  | cons a l ih => simp [join_cons, ih, String.append_assoc]

theorem bsize_join (l : List String) : bsize (String.join l) = chunksSize l := by
  induction l with
  | nil => rfl
  | cons a l ih => simp [join_cons, bsize_append, ih, chunksSize]

theorem chunksSize_append (l₁ l₂ : List String) :
    chunksSize (l₁ ++ l₂) = chunksSize l₁ + chunksSize l₂ := by
  simp [chunksSize]

theorem chunksSize_cons (s : String) (l : List String) :
    chunksSize (s :: l) = bsize s + chunksSize l := by
  simp [chunksSize]

/-! ## Decimal rendering facts

Python's `str(n)` / `f"{n:010d}"` on a nonnegative integer and Lean's
`toString (n : Nat)` produce the same decimal digit string. -/

def decimalDigits : List Char := ['0','1','2','3','4','5','6','7','8','9']

theorem digitChar_mem : ∀ m, m < 10 → Nat.digitChar m ∈ decimalDigits := by decide

theorem toDigitsCore_length_le :
    ∀ (fuel k n : Nat) (ds : List Char), n < 10 ^ (k + 1) → n + 1 ≤ fuel →
      (Nat.toDigitsCore 10 fuel n ds).length ≤ (k + 1) + ds.length := by
  intro fuel
  induction fuel with
  | zero => intro k n ds _ h; omega
  | succ fuel ih =>
    intro k n ds hlt hf
    simp only [Nat.toDigitsCore]
    split
    · simp; omega
    · rename_i hne
      have hn10 : 10 ≤ n := by
        by_contra h10
        exact hne (Nat.div_eq_of_lt (by omega))
      cases k with
      | zero =>
        exfalso
        have : n < 10 := by simpa using hlt
        omega
      | succ k' =>
        have hdiv : n / 10 < 10 ^ (k' + 1) := by
          rw [Nat.div_lt_iff_lt_mul (by norm_num)]
          calc n < 10 ^ (k' + 1 + 1) := hlt
          _ = 10 ^ (k' + 1) * 10 := by ring
        have hfuel : n / 10 + 1 ≤ fuel := by
          have := Nat.div_lt_self (show 0 < n by omega) (show 1 < 10 by norm_num)
          omega
        have h2 := ih k' (n / 10) (Nat.digitChar (n % 10) :: ds) hdiv hfuel
        simp only [List.length_cons] at h2
        omega

theorem toDigitsCore_mem :
    ∀ (fuel n : Nat) (ds : List Char), (∀ c ∈ ds, c ∈ decimalDigits) →
      ∀ c ∈ Nat.toDigitsCore 10 fuel n ds, c ∈ decimalDigits := by
  intro fuel
  induction fuel with
  | zero => intro n ds h; simpa [Nat.toDigitsCore] using h
  | succ fuel ih =>
    intro n ds h
    simp only [Nat.toDigitsCore]
    have hcons : ∀ c ∈ Nat.digitChar (n % 10) :: ds, c ∈ decimalDigits := by
      intro c hc
      rcases List.mem_cons.mp hc with rfl | hc
      · exact digitChar_mem _ (Nat.mod_lt _ (by norm_num))
      · exact h c hc
    split
    · exact hcons
    · exact ih _ _ hcons

theorem repr_data_digits (n : Nat) : ∀ c ∈ (Nat.repr n).data, c ∈ decimalDigits := by
  intro c hc
  exact toDigitsCore_mem (n + 1) n [] (by simp) c hc

theorem utf8Size_of_digit {c : Char} (h : c ∈ decimalDigits) : c.utf8Size = 1 := by
  fin_cases h <;> rfl

theorem utf8Len_eq_length {l : List Char} (h : ∀ c ∈ l, c.utf8Size = 1) :
    String.utf8Len l = l.length := by
  induction l with
  | nil => rfl
  | cons c cs ih =>
    simp only [String.utf8Len_cons, List.length_cons,
      ih (fun d hd => h d (List.mem_cons_of_mem _ hd)), h c (List.mem_cons_self _ _)]

theorem bsize_eq_length_of_digits {s : String} (h : ∀ c ∈ s.data, c ∈ decimalDigits) :
    bsize s = s.length := by
  cases s with
  | mk l =>
    show String.utf8ByteSize _ = _
    rw [String.utf8ByteSize_mk, utf8Len_eq_length (fun c hc => utf8Size_of_digit (h c hc))]
    rfl

theorem repr_length_le {n k : Nat} (h1 : 1 ≤ k) (h : n < 10 ^ k) :
    (Nat.repr n).length ≤ k := by
  have heq : (Nat.repr n).length = (Nat.toDigitsCore 10 (n + 1) n []).length := rfl
  rw [heq]
  have hb := toDigitsCore_length_le (n + 1) (k - 1) n [] (by
    rw [show k - 1 + 1 = k from by omega]; exact h) (Nat.le_refl _)
  simp only [List.length_nil] at hb
  omega

theorem toString_nat (n : Nat) : toString n = Nat.repr n := rfl

/-- Python's zero padding `f"{n:0{width}d}"` for a nonnegative integer:
the decimal digits of `n`, left-padded with `'0'` up to `width`. -/
def fmtPad (width n : Nat) : String :=
  let s := toString n
  String.mk (List.replicate (width - s.length) '0') ++ s

theorem bsize_fmtPad {width n : Nat} (h1 : 1 ≤ width) (h : n < 10 ^ width) :
    bsize (fmtPad width n) = width ∧ (fmtPad width n).length = width := by
  have hlen := repr_length_le h1 h
  have hz : ∀ c ∈ (String.mk (List.replicate (width - (Nat.repr n).length) '0')).data,
      c ∈ decimalDigits := by
    intro c hc
    simp only [String.data] at hc
    have := List.eq_of_mem_replicate hc
    subst this
    decide
  constructor
  · rw [fmtPad]
    simp only [toString_nat]
    rw [bsize_append, bsize_eq_length_of_digits hz,
      bsize_eq_length_of_digits (repr_data_digits n)]
    show (List.replicate (width - (Nat.repr n).length) '0').length + _ = _
    simp only [List.length_replicate]
    omega
  · rw [fmtPad]
    simp only [toString_nat, String.length_append]
    show (List.replicate (width - (Nat.repr n).length) '0').length + _ = _
    simp only [List.length_replicate]
    omega

end PdfGen

namespace PdfGen

/-! ## `generate_lorem_pdf.py` — the document writer of `create_pdf_with_text`
(lines 107–222)

The writer emits, in order: the header, one chunk group per object
(catalog, pages, one page object per page, one stream object per page —
a stream object is three `f.write` calls), the cross-reference section and
the trailer.  `obj_positions[i] = f.tell()` is captured immediately before
the first chunk of object `i`, i.e. it equals the byte size of the header
plus all earlier objects' chunks; `xref_pos = f.tell()` is captured
immediately before the `"xref\n"` chunk. -/

/-- The introducer line `f"{n} 0 obj\n"` of object `n`. -/
def objIntro (n : Nat) : String := toString n ++ " 0 obj\n"

/-- Line 109: `f.write(b"%PDF-1.4\n")`. -/
def headerChunk : String := "%PDF-1.4\n"

/-- Lines 116–122: object 1, the catalog (`/Pages 2 0 R`). -/
def catalogChunk : String :=
  objIntro 1 ++ "<<\n/Type /Catalog\n/Pages 2 0 R\n>>\nendobj\n"

/-- Lines 129–130: `page_refs` is `f"{3 + i} 0 R"` for `i in range(total_pages)`,
joined by `' '.join` at line 135. -/
def pageRefsStr (totalP : Nat) : String :=
  " ".intercalate ((List.range totalP).map (fun i => toString (3 + i) ++ " 0 R"))

/-- Lines 132–139: object 2, the pages object. -/
def pagesChunk (totalP : Nat) : String :=
  objIntro 2 ++ "<<\n/Type /Pages\n/Kids [" ++ pageRefsStr totalP ++ "]\n/Count " ++
    toString totalP ++ "\n>>\nendobj\n"

/-- Lines 149–166: a page object (`page_width = 612`, `page_height = 792`,
`pages_obj = 2`). -/
def pageChunk (pageObj contentObj : Nat) : String :=
  objIntro pageObj ++ "<<\n/Type /Page\n/Parent 2 0 R\n/MediaBox [0 0 612 792]\n/Resources <<\n  /Font <<\n    /F1 <<\n      /Type /Font\n      /Subtype /Type1\n      /BaseFont /Helvetica\n    >>\n  >>\n>>\n/Contents " ++ toString contentObj ++ " 0 R\n>>\nendobj\n"

/-- Python `str.replace(old, new)` for a one-character pattern `old`:
each occurrence of the character is replaced by `new`; replacements are not
rescanned. -/
def replaceChar (s : String) (c : Char) (r : String) : String :=
  String.mk (s.data.flatMap (fun d => if d = c then r.data else [d]))

/-- Line 183: `line.replace('\\', '\\\\').replace('(', '\\(').replace(')', '\\)')`. -/
def escapeLine (line : String) : String :=
  replaceChar (replaceChar (replaceChar line '\\' "\\\\") '(' "\\(") ')' "\\)"

/-- Line 184: the two drawing commands appended for one text line
(`line_height = 14`). -/
def lineCmds (line : String) : String :=
  "(" ++ escapeLine line ++ ") Tj\n0 -14 Td\n"

/-- Lines 179–189: the content stream of one page.  With `font_size = 12`,
`margin = 72`, `page_height = 792`: the text matrix starts at
`72 708` (`792−72−12`), and `margin - page_height + 30 = -690`. -/
def contentStreamStr (pageNum totalP : Nat) (pageLines : List String) : String :=
  "BT\n/F1 12 Tf\n72 708 Td\n" ++
  String.join (pageLines.map lineCmds) ++
  "0 -690 Td\n" ++
  "(Page " ++ toString (pageNum + 1) ++ " of " ++ toString totalP ++ ") Tj\n" ++ "ET\n"

/-- Lines 193–200: the three `f.write` calls of a content-stream object;
`/Length` is `len(content_bytes)`, the byte length of the encoded stream. -/
def streamObjChunks (objNum : Nat) (content : String) : List String :=
  [objIntro objNum ++ "<<\n/Length " ++ toString (bsize content) ++ "\n>>\nstream\n",
   content,
   "endstream\nendobj\n"]

/-- Line 103 with symbolic `lines_per_page`:
`total_pages = max(1, (len(wrapped_lines) + lines_per_page - 1) // lines_per_page)`. -/
def totalPagesP (lpp : Nat) (lines : List String) : Nat :=
  max 1 ((lines.length + lpp - 1) / lpp)

/-- Lines 174–176 with symbolic `lines_per_page`:
`wrapped_lines[page_num * lpp : min(page_num * lpp + lpp, len(wrapped_lines))]`. -/
def pageSliceP (lpp : Nat) (lines : List String) (k : Nat) : List String :=
  (lines.drop (k * lpp)).take lpp

/-- Line 86: `lines_per_page = int(text_height / line_height)` with
`text_height = 792 - 2*72 = 648` and `line_height = 14`, i.e. `648 // 14 = 46`. -/
def linesPerPage : Nat := 46

def totalPages (lines : List String) : Nat := totalPagesP linesPerPage lines

def pageSlice (lines : List String) (k : Nat) : List String := pageSliceP linesPerPage lines k

/-- The chunk groups of the objects, in object-number order: object 1 is the
catalog, object 2 the pages object, objects `3 .. 2+P` the page objects
(lines 143–167, `content_obj = current_obj + total_pages`), and objects
`3+P .. 2+2P` the content streams (lines 170–201). -/
def loremGroups (lines : List String) : List (List String) :=
  let P := totalPages lines
  [[catalogChunk], [pagesChunk P]] ++
  (List.range P).map (fun k => [pageChunk (3 + k) (3 + P + k)]) ++
  (List.range P).map (fun k =>
    streamObjChunks (3 + P + k) (contentStreamStr k P (pageSlice lines k)))

/-- Number of objects written: `current_obj - 1 = 2 + 2 * total_pages`. -/
def loremNumObjs (lines : List String) : Nat := 2 + 2 * totalPages lines

/-- `obj_positions[i]`: the value of `f.tell()` immediately before the first
chunk of object `i` — the byte size of the header plus all earlier groups. -/
def loremObjPos (lines : List String) (i : Nat) : Nat :=
  bsize headerChunk + chunksSize (((loremGroups lines).take (i - 1)).flatten)

/-- `xref_pos` (line 204): `f.tell()` after all object groups. -/
def loremXrefPos (lines : List String) : Nat :=
  bsize headerChunk + chunksSize (loremGroups lines).flatten

/-- Lines 210–211: one 20-byte cross-reference entry
`f"{pos:010d}" + " 00000 n \n"`. -/
def xrefEntry (off : Nat) : String := fmtPad 10 off ++ " 00000 n \n"

/-- Lines 205–211: the cross-reference section — keyword, header
`f"0 {current_obj}\n"`, fixed free-head entry, then one entry per object
`for i in range(1, current_obj)`. -/
def loremXrefChunks (lines : List String) : List String :=
  ["xref\n", "0 " ++ toString (loremNumObjs lines + 1) ++ "\n", "0000000000 65535 f \n"] ++
  (List.range (loremNumObjs lines)).map (fun j => xrefEntry (loremObjPos lines (j + 1)))

/-- Lines 214–222: the trailer write (`/Size {current_obj}`, `startxref`,
`xref_pos`). -/
def loremTrailerChunk (lines : List String) : String :=
  "trailer\n<<\n/Size " ++ toString (loremNumObjs lines + 1) ++
  "\n/Root 1 0 R\n>>\nstartxref\n" ++ toString (loremXrefPos lines) ++ "\n%%EOF\n"

/-- All chunks of the emitted file in write order, as a function of the
wrapped text lines computed at lines 88–101. -/
def loremFileChunks (lines : List String) : List String :=
  headerChunk :: (loremGroups lines).flatten ++ loremXrefChunks lines ++ [loremTrailerChunk lines]

/-- The bytes of the document emitted by `create_pdf_with_text` for a given
list of wrapped lines. -/
def loremFile (lines : List String) : String := String.join (loremFileChunks lines)

theorem loremGroups_expand (lines : List String) :
    loremGroups lines = [catalogChunk] :: [pagesChunk (totalPages lines)] ::
      ((List.range (totalPages lines)).map
          (fun k => [pageChunk (3 + k) (3 + totalPages lines + k)]) ++
       (List.range (totalPages lines)).map
          (fun k => streamObjChunks (3 + totalPages lines + k)
            (contentStreamStr k (totalPages lines) (pageSlice lines k)))) := rfl

theorem loremGroups_length (lines : List String) :
    (loremGroups lines).length = loremNumObjs lines := by
  rw [loremGroups_expand]
  simp [loremNumObjs]
  omega

/-- Every object group's first chunk begins with that object's introducer
line. -/
theorem loremGroup_intro (lines : List String) (i : Nat) (h : i < loremNumObjs lines) :
    ∃ (rem : String) (cs : List String),
      (loremGroups lines)[i]? = some ((objIntro (i + 1) ++ rem) :: cs) := by
  have hnum : loremNumObjs lines = 2 + 2 * totalPages lines := rfl
  rw [loremGroups_expand]
  match i, h with
  | 0, _ =>
    refine ⟨"<<\n/Type /Catalog\n/Pages 2 0 R\n>>\nendobj\n", [], ?_⟩
    simp only [List.getElem?_cons_zero]
    rfl
  | 1, _ =>
    refine ⟨"<<\n/Type /Pages\n/Kids [" ++ pageRefsStr (totalPages lines) ++ "]\n/Count " ++
      toString (totalPages lines) ++ "\n>>\nendobj\n", [], ?_⟩
    simp only [List.getElem?_cons_succ, List.getElem?_cons_zero]
    simp only [pagesChunk, String.append_assoc]
  | (k + 2), h =>
    simp only [List.getElem?_cons_succ]
    by_cases hk : k < totalPages lines
    · rw [List.getElem?_append, if_pos (by simpa using hk), List.getElem?_map,
        List.getElem?_range hk]
      simp only [Option.map_some']
      rw [show k + 2 + 1 = 3 + k from by omega]
      exact ⟨"<<\n/Type /Page\n/Parent 2 0 R\n/MediaBox [0 0 612 792]\n/Resources <<\n  /Font <<\n    /F1 <<\n      /Type /Font\n      /Subtype /Type1\n      /BaseFont /Helvetica\n    >>\n  >>\n>>\n/Contents " ++ toString (3 + totalPages lines + k) ++ " 0 R\n>>\nendobj\n", [],
        by simp only [pageChunk, String.append_assoc]⟩
    · have hk2 : k - totalPages lines < totalPages lines := by omega
      rw [List.getElem?_append, if_neg (by simpa using hk),
        List.length_map, List.length_range, List.getElem?_map, List.getElem?_range hk2]
      simp only [Option.map_some']
      rw [show k + 2 + 1 = 3 + totalPages lines + (k - totalPages lines) from by omega]
      exact ⟨"<<\n/Length " ++ toString (bsize (contentStreamStr (k - totalPages lines)
          (totalPages lines) (pageSlice lines (k - totalPages lines)))) ++ "\n>>\nstream\n",
        [contentStreamStr (k - totalPages lines) (totalPages lines)
          (pageSlice lines (k - totalPages lines)), "endstream\nendobj\n"],
        by simp only [streamObjChunks, String.append_assoc]⟩

/-- The emitted file splits, at the byte offset recorded for object `i`,
into a prefix of exactly that size followed by object `i`'s introducer. -/
theorem loremFile_decomp_at (lines : List String) (i : Nat) (h1 : 1 ≤ i)
    (h2 : i ≤ loremNumObjs lines) :
    ∃ pre rest : String, loremFile lines = pre ++ (objIntro i ++ rest) ∧
      bsize pre = loremObjPos lines i := by
  obtain ⟨rem, cs, hget⟩ := loremGroup_intro lines (i - 1) (by omega)
  rw [show i - 1 + 1 = i from by omega] at hget
  have hlen : i - 1 < (loremGroups lines).length := by
    rw [loremGroups_length]; omega
  have hgetE : (loremGroups lines)[i-1] = (objIntro i ++ rem) :: cs := by
    rw [List.getElem?_eq_getElem hlen] at hget
    exact Option.some.inj hget
  have hsplit : loremGroups lines =
      (loremGroups lines).take (i - 1) ++
        ((objIntro i ++ rem) :: cs) :: (loremGroups lines).drop i := by
    conv_lhs => rw [← List.take_append_drop (i - 1) (loremGroups lines)]
    congr 1
    rw [List.drop_eq_getElem_cons hlen, hgetE]
    congr 2
    omega
  refine ⟨headerChunk ++ String.join (((loremGroups lines).take (i - 1)).flatten),
    rem ++ (String.join cs ++ (String.join (((loremGroups lines).drop i).flatten) ++
      (String.join (loremXrefChunks lines) ++ loremTrailerChunk lines))), ?_, ?_⟩
  · rw [loremFile, loremFileChunks, join_append, join_append, join_cons]
    rw [show String.join [loremTrailerChunk lines] = loremTrailerChunk lines from by
      rw [join_cons, join_nil, String.append_empty]]
    conv_lhs => rw [hsplit]
    rw [List.flatten_append, List.flatten_cons, join_append, join_append, join_cons]
    simp only [String.append_assoc]
  · rw [bsize_append, bsize_join, loremObjPos]

/-- The emitted file splits, at the recorded `xref_pos`, into a prefix of
exactly that size followed by the `xref` keyword. -/
theorem loremFile_xref_decomp (lines : List String) :
    ∃ rest : String,
      loremFile lines =
        (headerChunk ++ String.join ((loremGroups lines).flatten)) ++ ("xref\n" ++ rest) ∧
      bsize (headerChunk ++ String.join ((loremGroups lines).flatten)) = loremXrefPos lines := by
  refine ⟨("0 " ++ toString (loremNumObjs lines + 1) ++ "\n" ++ "0000000000 65535 f \n" ++
      String.join ((List.range (loremNumObjs lines)).map
        (fun j => xrefEntry (loremObjPos lines (j + 1))))) ++ loremTrailerChunk lines, ?_, ?_⟩
  · rw [loremFile, loremFileChunks, join_append, join_append, join_cons]
    rw [show String.join [loremTrailerChunk lines] = loremTrailerChunk lines from by
      rw [join_cons, join_nil, String.append_empty]]
    rw [loremXrefChunks]
    rw [show (["xref\n", "0 " ++ toString (loremNumObjs lines + 1) ++ "\n",
        "0000000000 65535 f \n"] : List String) ++
        (List.range (loremNumObjs lines)).map
          (fun j => xrefEntry (loremObjPos lines (j + 1))) =
        "xref\n" :: ("0 " ++ toString (loremNumObjs lines + 1) ++ "\n") ::
        "0000000000 65535 f \n" ::
        (List.range (loremNumObjs lines)).map
          (fun j => xrefEntry (loremObjPos lines (j + 1))) from rfl]
    rw [join_cons, join_cons, join_cons]
    simp only [String.append_assoc]
  · rw [bsize_append, bsize_join, loremXrefPos]

/-- The decimal number the trailer prints after `startxref` is exactly
`toString xref_pos`. -/
theorem loremFile_startxref (lines : List String) :
    ∃ pre2 : String,
      loremFile lines = pre2 ++ ("startxref\n" ++
        (toString (loremXrefPos lines) ++ "\n%%EOF\n")) := by
  refine ⟨headerChunk ++ (String.join ((loremGroups lines).flatten) ++
    (String.join (loremXrefChunks lines) ++ ("trailer\n<<\n/Size " ++
      (toString (loremNumObjs lines + 1) ++ "\n/Root 1 0 R\n>>\n")))), ?_⟩
  rw [loremFile, loremFileChunks, join_append, join_append, join_cons]
  rw [show String.join [loremTrailerChunk lines] = loremTrailerChunk lines from by
    rw [join_cons, join_nil, String.append_empty]]
  rw [loremTrailerChunk]
  rw [show ("\n/Root 1 0 R\n>>\nstartxref\n" : String) =
    "\n/Root 1 0 R\n>>\n" ++ "startxref\n" from by decide]
  simp only [String.append_assoc]

end PdfGen

namespace PdfGen

/-! ## `generate_large_pdf_binary.py` — `create_large_pdf_binary` (lines 16–123)

Objects 1–4 are written as fixed byte strings, with `obj_positions[i] = f.tell()`
captured before each; then null-byte padding is written in 1 MiB chunks up to
`target_size - current_pos - footer_size` with `footer_size = 200` (lines 86–104);
then the cross-reference table and trailer (lines 106–120). -/

/-- Line 25: `f.write(b"%PDF-1.4\n")`. -/
def lbHeader : String := "%PDF-1.4\n"

/-- Lines 32–38: object 1, the catalog. -/
def lbObj1 : String := objIntro 1 ++ "<<\n/Type /Catalog\n/Pages 2 0 R\n>>\nendobj\n"

/-- Lines 42–49: object 2, the pages object. -/
def lbObj2 : String := objIntro 2 ++ "<<\n/Type /Pages\n/Kids [3 0 R]\n/Count 1\n>>\nendobj\n"

/-- Lines 53–70: object 3, the page object. -/
def lbObj3 : String := objIntro 3 ++ "<<\n/Type /Page\n/Parent 2 0 R\n/MediaBox [0 0 612 792]\n/Resources <<\n  /Font <<\n    /F1 <<\n      /Type /Font\n      /Subtype /Type1\n      /BaseFont /Helvetica\n    >>\n  >>\n>>\n/Contents 4 0 R\n>>\nendobj\n"

/-- Lines 73–80: the content stream payload. -/
def lbContent : String := "BT\n/F1 14 Tf\n50 750 Td\n(Large binary PDF) Tj\n0 -20 Td\n(Generated for testing purposes) Tj\nET\n"

/-- Lines 82–84: the three writes of object 4
(`b"4 0 obj\n<<\n/Length " + str(len(content_stream)).encode() + b"\n>>\nstream\n"`,
the payload, `b"endstream\nendobj\n"`). -/
def lbObj4Chunks : List String :=
  [objIntro 4 ++ "<<\n/Length " ++ toString (bsize lbContent) ++ "\n>>\nstream\n",
   lbContent, "endstream\nendobj\n"]

/-- The chunk groups of objects 1–4 in write order. -/
def lbGroups : List (List String) := [[lbObj1], [lbObj2], [lbObj3], lbObj4Chunks]

/-- `obj_positions[i]`: `f.tell()` before object `i`'s first chunk. -/
def lbObjPos (i : Nat) : Nat := bsize lbHeader + chunksSize ((lbGroups.take (i - 1)).flatten)

/-- Line 87: `current_pos = f.tell()` after object 4. -/
def lbCurrentPos : Nat := bsize lbHeader + chunksSize lbGroups.flatten

/-- A chunk of `n` null bytes (`b'\x00' * n`, line 99). -/
def nullChunk (n : Nat) : String := String.mk (List.replicate n (Char.ofNat 0))

/-- Lines 92–101: the padding loop — while bytes remain, write
`min(1024*1024, remaining)` null bytes. -/
def paddingChunks (remaining : Nat) : List String :=
  if h : remaining = 0 then []
  else
    nullChunk (min (1024 * 1024) remaining) ::
      paddingChunks (remaining - min (1024 * 1024) remaining)
termination_by remaining
decreasing_by
  have hmin : 0 < min (1024 * 1024) remaining := by omega
  omega

/-- Line 89: `padding_needed = target_size - current_pos - footer_size`
with `target_size = size_mb * 1024 * 1024` and `footer_size = 200`. -/
def lbPaddingNeeded (S : Nat) : Int := (S * 1024 * 1024 : Int) - lbCurrentPos - 200

/-- Line 91: padding is written only `if padding_needed > 0`. -/
def lbPadding (S : Nat) : List String :=
  if 0 < lbPaddingNeeded S then paddingChunks (lbPaddingNeeded S).toNat else []

/-- Line 107: `xref_pos = f.tell()` after the padding. -/
def lbXrefPos (S : Nat) : Nat := lbCurrentPos + chunksSize (lbPadding S)

/-- Lines 108–114: the cross-reference section (`b"0 5\n"`, free head,
entries `for i in range(1, 5)`). -/
def lbXrefChunks : List String :=
  ["xref\n", "0 5\n", "0000000000 65535 f \n"] ++
  (List.range 4).map (fun j => xrefEntry (lbObjPos (j + 1)))

/-- Lines 117–120: the four trailer writes. -/
def lbTrailerChunks (S : Nat) : List String :=
  ["trailer\n<<\n/Size 5\n/Root 1 0 R\n>>\n", "startxref\n", toString (lbXrefPos S), "\n%%EOF\n"]

/-- All chunks of the emitted file in write order. -/
def lbFileChunks (S : Nat) : List String :=
  lbHeader :: lbGroups.flatten ++ lbPadding S ++ lbXrefChunks ++ lbTrailerChunks S

/-- The bytes of the document emitted by `create_large_pdf_binary` for a
target size of `S` megabytes. -/
def lbFile (S : Nat) : String := String.join (lbFileChunks S)

theorem bsize_nullChunk (n : Nat) : bsize (nullChunk n) = n := by
  show String.utf8ByteSize _ = n
  rw [nullChunk, String.utf8ByteSize_mk]
  induction n with
  | zero => rfl
  | succ n ih =>
    rw [List.replicate_succ, String.utf8Len_cons]
    rw [show (Char.ofNat 0).utf8Size = 1 from rfl]
    omega

/-- The padding loop writes exactly the requested number of bytes
(correctness independent of the chunk size). -/
theorem chunksSize_paddingChunks (n : Nat) : chunksSize (paddingChunks n) = n := by
  induction n using Nat.strong_induction_on with
  | _ n ih =>
    rw [paddingChunks]
    split
    · simp only [chunksSize, List.map_nil, List.sum_nil]; omega
    · rename_i h
      have hmin : 0 < min (1024 * 1024) n := by omega
      simp only [chunksSize, List.map_cons, List.sum_cons, bsize_nullChunk]
      rw [show (List.map bsize (paddingChunks (n - min (1024 * 1024) n))).sum =
        chunksSize (paddingChunks (n - min (1024 * 1024) n)) from rfl]
      rw [ih _ (by omega)]
      omega

theorem lbGroup_intro (i : Nat) (h : i < 4) :
    ∃ (rem : String) (cs : List String),
      lbGroups[i]? = some ((objIntro (i + 1) ++ rem) :: cs) := by
  interval_cases i
  · exact ⟨"<<\n/Type /Catalog\n/Pages 2 0 R\n>>\nendobj\n", [],
      by simp only [lbGroups, lbObj1, List.getElem?_cons_zero]⟩
  · exact ⟨"<<\n/Type /Pages\n/Kids [3 0 R]\n/Count 1\n>>\nendobj\n", [],
      by simp only [lbGroups, lbObj2, List.getElem?_cons_zero, List.getElem?_cons_succ]⟩
  · exact ⟨"<<\n/Type /Page\n/Parent 2 0 R\n/MediaBox [0 0 612 792]\n/Resources <<\n  /Font <<\n    /F1 <<\n      /Type /Font\n      /Subtype /Type1\n      /BaseFont /Helvetica\n    >>\n  >>\n>>\n/Contents 4 0 R\n>>\nendobj\n", [],
      by simp only [lbGroups, lbObj3, List.getElem?_cons_zero, List.getElem?_cons_succ]⟩
  · exact ⟨"<<\n/Length " ++ (toString (bsize lbContent) ++ "\n>>\nstream\n"),
      [lbContent, "endstream\nendobj\n"],
      by simp only [lbGroups, lbObj4Chunks, List.getElem?_cons_zero, List.getElem?_cons_succ,
        String.append_assoc]⟩

/-- The large-binary file splits, at the byte offset recorded for object `i`,
into a prefix of exactly that size followed by object `i`'s introducer. -/
theorem lbFile_decomp_at (S i : Nat) (h1 : 1 ≤ i) (h2 : i ≤ 4) :
    ∃ pre rest : String, lbFile S = pre ++ (objIntro i ++ rest) ∧
      bsize pre = lbObjPos i := by
  obtain ⟨rem, cs, hget⟩ := lbGroup_intro (i - 1) (by omega)
  rw [show i - 1 + 1 = i from by omega] at hget
  have hlen : i - 1 < lbGroups.length := by
    rw [show lbGroups.length = 4 from rfl]; omega
  have hgetE : lbGroups[i-1] = (objIntro i ++ rem) :: cs := by
    rw [List.getElem?_eq_getElem hlen] at hget
    exact Option.some.inj hget
  have hsplit : lbGroups =
      lbGroups.take (i - 1) ++ ((objIntro i ++ rem) :: cs) :: lbGroups.drop i := by
    conv_lhs => rw [← List.take_append_drop (i - 1) lbGroups]
    congr 1
    rw [List.drop_eq_getElem_cons hlen, hgetE]
    congr 2
    omega
  refine ⟨lbHeader ++ String.join ((lbGroups.take (i - 1)).flatten),
    rem ++ (String.join cs ++ (String.join ((lbGroups.drop i).flatten) ++
      (String.join (lbPadding S) ++ (String.join lbXrefChunks ++
        String.join (lbTrailerChunks S))))), ?_, ?_⟩
  · rw [lbFile, lbFileChunks, join_append, join_append, join_append, join_cons]
    conv_lhs => rw [hsplit]
    rw [List.flatten_append, List.flatten_cons, join_append, join_append, join_cons]
    simp only [String.append_assoc]
  · rw [bsize_append, bsize_join, lbObjPos]

/-- The large-binary file splits, at the recorded `xref_pos`, into a prefix
of exactly that size followed by the `xref` keyword. -/
theorem lbFile_xref_decomp (S : Nat) :
    ∃ rest : String,
      lbFile S = (lbHeader ++ (String.join lbGroups.flatten ++ String.join (lbPadding S))) ++
        ("xref\n" ++ rest) ∧
      bsize (lbHeader ++ (String.join lbGroups.flatten ++ String.join (lbPadding S))) =
        lbXrefPos S := by
  refine ⟨("0 5\n" ++ ("0000000000 65535 f \n" ++ (String.join ((List.range 4).map
      (fun j => xrefEntry (lbObjPos (j + 1)))) ++ String.join (lbTrailerChunks S)))), ?_, ?_⟩
  · rw [lbFile, lbFileChunks, join_append, join_append, join_append, join_cons]
    rw [lbXrefChunks]
    rw [show (["xref\n", "0 5\n", "0000000000 65535 f \n"] : List String) ++
        (List.range 4).map (fun j => xrefEntry (lbObjPos (j + 1))) =
        "xref\n" :: "0 5\n" :: "0000000000 65535 f \n" ::
        (List.range 4).map (fun j => xrefEntry (lbObjPos (j + 1))) from rfl]
    rw [join_cons, join_cons, join_cons]
    simp only [String.append_assoc]
  · rw [bsize_append, bsize_append, bsize_join, bsize_join, lbXrefPos, lbCurrentPos]
    omega

/-- The decimal number printed after `startxref` is exactly
`str(xref_pos)`. -/
theorem lbFile_startxref (S : Nat) :
    ∃ pre2 : String,
      lbFile S = pre2 ++ ("startxref\n" ++ (toString (lbXrefPos S) ++ "\n%%EOF\n")) := by
  refine ⟨lbHeader ++ (String.join lbGroups.flatten ++ (String.join (lbPadding S) ++
    (String.join lbXrefChunks ++ "trailer\n<<\n/Size 5\n/Root 1 0 R\n>>\n"))), ?_⟩
  rw [lbFile, lbFileChunks, join_append, join_append, join_append, join_cons]
  rw [lbTrailerChunks, join_cons, join_cons, join_cons, join_cons, join_nil,
    String.append_empty]
  simp only [String.append_assoc]

/-- The footer actually written after the padding: cross-reference section
plus trailer. -/
def lbFooterSize (S : Nat) : Nat := chunksSize (lbXrefChunks ++ lbTrailerChunks S)

theorem lbPadding_size (S : Nat) (h1 : 1 ≤ S) :
    chunksSize (lbPadding S) = S * 1024 * 1024 - 662 := by
  have hcur : lbCurrentPos = 462 := by decide
  have hpadN : lbPaddingNeeded S = (S * 1024 * 1024 : Int) - 662 := by
    rw [lbPaddingNeeded, hcur]
    push_cast
    ring
  have hS : 1048576 ≤ S * 1024 * 1024 := by
    calc 1048576 = 1 * 1024 * 1024 := by norm_num
    _ ≤ S * 1024 * 1024 := by
      apply Nat.mul_le_mul_right
      apply Nat.mul_le_mul_right
      exact h1
  have hpos : 0 < lbPaddingNeeded S := by
    rw [hpadN]
    have hScast : (1048576 : Int) ≤ (S * 1024 * 1024 : Nat) := by exact_mod_cast hS
    push_cast at hScast ⊢
    omega
  rw [lbPadding, if_pos hpos, chunksSize_paddingChunks, hpadN]
  omega

theorem lbXrefPos_eq (S : Nat) (h1 : 1 ≤ S) :
    lbXrefPos S = S * 1024 * 1024 - 200 := by
  have hS : 1048576 ≤ S * 1024 * 1024 := by
    calc 1048576 = 1 * 1024 * 1024 := by norm_num
    _ ≤ S * 1024 * 1024 := by
      apply Nat.mul_le_mul_right
      apply Nat.mul_le_mul_right
      exact h1
  rw [lbXrefPos, lbPadding_size S h1, show lbCurrentPos = 462 from by decide]
  omega

end PdfGen

namespace PdfGen

/-! ## `generate_lorem_pdf.py` — `generate_lorem_text` (lines 44–65) and the
text-wrapping stage of `create_pdf_with_text` (lines 85–101)

`generate_lorem_text` consumes the process-global `random` generator, which the
script never seeds.  The ambient randomness is made explicit as an oracle
`RngState`: a stream of outcomes for the `random.choice` calls (an index into
the word pool), the `random.randint(8, 20)` calls (a value in 8..20), and the
`random.random()` calls (a rational in [0, 1)), consumed in call order. -/

/-- Lines 19–42: the word pool. -/
def LOREM_WORDS : List String :=
  ["lorem", "ipsum", "dolor", "sit", "amet", "consectetur", "adipiscing", "elit", "sed", "do", 
   "eiusmod", "tempor", "incididunt", "ut", "labore", "et", "dolore", "magna", "aliqua", "enim", 
   "ad", "minim", "veniam", "quis", "nostrud", "exercitation", "ullamco", "laboris", "nisi", 
   "aliquip", "ex", "ea", "commodo", "consequat", "duis", "aute", "irure", "in", "reprehenderit", 
   "voluptate", "velit", "esse", "cillum", "fugiat", "nulla", "pariatur", "excepteur", "sint", 
   "occaecat", "cupidatat", "non", "proident", "sunt", "culpa", "qui", "officia", "deserunt", 
   "mollit", "anim", "id", "est", "laborum", "at", "vero", "eos", "accusamus", "accusantium", 
   "doloremque", "laudantium", "totam", "rem", "aperiam", "eaque", "ipsa", "quae", "ab", "illo", 
   "inventore", "veritatis", "quasi", "architecto", "beatae", "vitae", "dicta", "explicabo", 
   "nemo", "ipsam", "quia", "voluptas", "aspernatur", "odit", "aut", "fugit", "magni", "dolores", 
   "ratione", "sequi", "nesciunt", "neque", "porro", "quisquam", "dolorem", "adipisci", 
   "numquam", "eius", "modi", "tempora", "incidunt", "magnam", "quaerat", "voluptatem", "fuga", 
   "harum", "quidem", "rerum", "facilis", "expedita", "distinctio", "nam", "libero", "tempore", 
   "cum", "soluta", "nobis", "eligendi", "optio", "cumque", "nihil", "impedit", "quo", "minus", 
   "maxime", "placeat", "facere", "possimus", "omnis", "assumenda", "repellendus", "temporibus", 
   "autem", "officiis", "debitis", "saepe", "eveniet", "voluptates", "repudiandae", "recusandae", 
   "itaque", "earum", "hic", "tenetur", "sapiente", "delectus", "reiciendis", "maiores", "alias", 
   "perferendis", "doloribus", "asperiores", "repellat"]

/-- Explicit oracle for the unseeded module-level `random` generator. -/
structure RngState where
  choices : List Nat
  ints : List Nat
  floats : List Rat

/-- Outcome of a `random.choice` call: an index into the sampled sequence. -/
def popChoice : RngState → Nat × RngState
  | ⟨c :: cs, is, fs⟩ => (c, ⟨cs, is, fs⟩)
  | r => (0, r)

/-- Outcome of a `random.randint(8, 20)` call: a value in `8..20`. -/
def popRandint : RngState → Nat × RngState
  | ⟨cs, i :: is, fs⟩ => (8 + i % 13, ⟨cs, is, fs⟩)
  | r => (8, r)

/-- Outcome of a `random.random()` call. -/
def popRandom : RngState → Rat × RngState
  | ⟨cs, is, f :: fs⟩ => (f, ⟨cs, is, fs⟩)
  | r => (0, r)

/-- Python `str.capitalize()`: first character uppercased, the rest
lowercased. -/
def pyCapitalize (s : String) : String :=
  match s.data with
  | [] => ""
  | c :: cs => String.mk (c.toUpper :: cs.map Char.toLower)

/-- Python `s.endswith('.')`. -/
def endsWithDot (s : String) : Bool := s.data.getLast? == some '.'

/-- `words[-1] += suffix` on a list kept in reverse order (head = last word). -/
def appendToHead (l : List String) (suffix : String) : List String :=
  match l with
  | [] => []
  | w :: ws => (w ++ suffix) :: ws

/-- Lines 44–65: `generate_lorem_text(word_count)`.  Per iteration `i`:
choose a word (capitalised if first or after a sentence end), then evaluate
`(i + 1) % random.randint(8, 20) == 0 and i < word_count - 1`; when true,
append `'.'` if `random.random() < 0.7`, else append `','` if a second
`random.random() < 0.5`.  Finally a `'.'` is appended if missing, and the
words are joined with single spaces. -/
def generateLoremText (wordCount : Nat) (rng : RngState) : String :=
  let step := fun (acc : List String × RngState) (i : Nat) =>
    let (wordsRev, r0) := acc
    let (ci, r1) := popChoice r0
    let word0 := LOREM_WORDS.getD (ci % LOREM_WORDS.length) ""
    let word := if i == 0 || endsWithDot (wordsRev.headD "") then pyCapitalize word0 else word0
    let wordsRev1 := word :: wordsRev
    let (k, r2) := popRandint r1
    if (i + 1) % k == 0 && decide (i < wordCount - 1) then
      let (q1, r3) := popRandom r2
      if q1 < (7 : Rat) / 10 then (appendToHead wordsRev1 ".", r3)
      else
        let (q2, r4) := popRandom r3
        if q2 < (1 : Rat) / 2 then (appendToHead wordsRev1 ",", r4)
        else (wordsRev1, r4)
    else (wordsRev1, r2)
  let res := (List.range wordCount).foldl step ([], rng)
  let wordsRev2 := if endsWithDot (res.1.headD "") then res.1 else appendToHead res.1 "."
  " ".intercalate wordsRev2.reverse

/-- Python `str.split(sep)` for a nonempty separator: split at each
non-overlapping occurrence of `sep`, scanning left to right; separators are
not part of the pieces.  The fuel argument (initialised to the length of the
scanned text, which only ever shrinks at least as fast) makes the recursion
structural. -/
def pySplitAux (s0 : Char) (st : List Char) : Nat → List Char → List Char → List (List Char)
  | 0, _, acc => [acc.reverse]
  | fuel + 1, l, acc =>
    match l with
    | [] => [acc.reverse]
    | c :: rest =>
      if (s0 :: st).isPrefixOf (c :: rest) then
        acc.reverse :: pySplitAux s0 st fuel (rest.drop st.length) []
      else
        pySplitAux s0 st fuel rest (c :: acc)

/-- Python `str.split(sep)`; only used with nonempty separators. -/
def pySplit (s sep : String) : List String :=
  match sep.data with
  | [] => [s]
  | c :: cs => (pySplitAux c cs s.data.length s.data []).map String.mk

/-- Python `str.lower()`. -/
def pyLower (s : String) : String := String.mk (s.data.map Char.toLower)

/-- Greedy line packing of `textwrap.fill`: words already on the line, joined
by single spaces, plus the next word must not exceed the width. -/
def packGo (width : Nat) (cur : String) : List String → List String
  | [] => [cur]
  | w :: ws =>
    if cur.length + 1 + w.length ≤ width then packGo width (cur ++ " " ++ w) ws
    else cur :: packGo width w ws

/-- `textwrap.fill(text, width).split('\n')` for the texts this script
produces: words separated by single spaces, every word no longer than the
width (so no long-word breaking or hyphen splitting occurs), no other
whitespace.  `fill("")` is `""`, giving one empty line. -/
def pyFill (width : Nat) (text : String) : List String :=
  match (pySplit text " ").filter (fun w => w ≠ "") with
  | [] => [""]
  | w :: ws => packGo width w ws

/-- Lines 100–101: pop trailing empty lines. -/
def dropTrailingEmpty (l : List String) : List String :=
  (l.reverse.dropWhile (fun s => s == "")).reverse

/-- Line 85: `chars_per_line = int(text_width / (font_size * 0.6))` with
`text_width = 612 - 2*72 = 468` and `font_size = 12`: in IEEE-double
arithmetic `468 / 7.2` rounds to exactly `65.0`, so the value is 65. -/
def charsPerLine : Nat := 65

/-- Lines 88–101: split the text on `'. '`, restore a trailing period on each
nonempty paragraph, wrap each to `chars_per_line`, insert a blank separator
line after each paragraph, then drop trailing empties. -/
def wrapAll (text : String) : List String :=
  dropTrailingEmpty ((pySplit text ". ").foldl (fun acc para =>
    let para2 := if para != "" && !endsWithDot para then para ++ "." else para
    acc ++ pyFill charsPerLine para2 ++ [""]) [])

/-- The full pipeline of `create_pdf_with_text filename word_count`: the bytes
written to `filename`, as a function of the word count and the ambient
randomness. -/
def createPdfWithText (wordCount : Nat) (rng : RngState) : String :=
  loremFile (wrapAll (generateLoremText wordCount rng))

end PdfGen

namespace PdfGen

/-! ## `generate_corrupted_pdf.py`

`generate_truncated_pdf` (lines 27–43) and
`generate_unsupported_encryption_pdf` (lines 112–223).  Both take no
parameters besides the output path and consume no ambient state; their
output is a fixed byte string. -/

/-- Lines 31–42: the eleven writes of the truncated variant, which stops
mid-object (no `endobj`, no index table, no EOF marker). -/
def truncatedChunks : List String :=
  ["%PDF-1.4\n", "1 0 obj\n", "<<\n", "/Type /Catalog\n", "/Pages 2 0 R\n", ">>\n",
   "endobj\n", "2 0 obj\n", "<<\n", "/Type /Pages\n", "/Kids [3 0 R]\n"]

/-- The bytes of the document emitted by `generate_truncated_pdf`. -/
def truncatedFile : String := String.join truncatedChunks

/-- Line 121: `f.write(b"%PDF-1.7\n")`. -/
def encHeader : String := "%PDF-1.7\n"

/-- Lines 124–130: object 1, the catalog. -/
def encObj1 : String := objIntro 1 ++ "<<\n/Type /Catalog\n/Pages 2 0 R\n>>\nendobj\n"

/-- Lines 133–140: object 2, the pages object. -/
def encObj2 : String := objIntro 2 ++ "<<\n/Type /Pages\n/Kids [3 0 R]\n/Count 1\n>>\nendobj\n"

/-- Lines 143–160: object 3, the page object. -/
def encObj3 : String := objIntro 3 ++ "<<\n/Type /Page\n/Parent 2 0 R\n/MediaBox [0 0 612 792]\n/Contents 4 0 R\n/Resources <<\n  /Font <<\n    /F1 <<\n      /Type /Font\n      /Subtype /Type1\n      /BaseFont /Helvetica\n    >>\n  >>\n>>\n>>\nendobj\n"

/-- Line 163: the content stream payload. -/
def encContent : String := "BT\n/F1 12 Tf\n100 700 Td\n(Encrypted Document) Tj\nET\n"

/-- Lines 164–173: the three writes of object 4. -/
def encObj4Chunks : List String :=
  [objIntro 4 ++ "<<\n/Length " ++ toString (bsize encContent) ++ "\n>>\nstream\n",
   encContent, "endstream\nendobj\n"]

/-- Lines 177–200: object 5, the encryption dictionary (`/V 5 /R 6
/Length 1024`, AESV3 crypt filter). -/
def encObj5 : String := objIntro 5 ++ "<<\n/Filter /Standard\n/V 5\n/R 6\n/Length 1024\n/P -1\n/O <0000000000000000000000000000000000000000000000000000000000000000>\n/U <0000000000000000000000000000000000000000000000000000000000000000>\n/OE <0000000000000000000000000000000000000000000000000000000000000000>\n/UE <0000000000000000000000000000000000000000000000000000000000000000>\n/Perms <0000000000000000000000000000000000>\n/StrF /StdCF\n/StmF /StdCF\n/CF <<\n  /StdCF <<\n    /CFM /AESV3\n    /AuthEvent /DocOpen\n    /Length 32\n  >>\n>>\n>>\nendobj\n"

/-- The chunk groups of objects 1–5 in write order. -/
def encGroups : List (List String) := [[encObj1], [encObj2], [encObj3], encObj4Chunks, [encObj5]]

/-- The actual byte position at which object `i`'s introducer line is written:
the byte size of the header plus all earlier objects' chunks. -/
def encObjPos (i : Nat) : Nat := bsize encHeader + chunksSize ((encGroups.take (i - 1)).flatten)

/-- Line 203: `xref_pos = f.tell()` before the index table. -/
def encXrefPos : Nat := bsize encHeader + chunksSize encGroups.flatten

/-- Lines 207–211: the five HARDCODED index entries the script writes
(offsets 9, 68, 135, 369, 478). -/
def encWrittenEntries : List String :=
  ["0000000009 00000 n \n", "0000000068 00000 n \n", "0000000135 00000 n \n",
   "0000000369 00000 n \n", "0000000478 00000 n \n"]

/-- Lines 204–211: the cross-reference section. -/
def encXrefChunks : List String :=
  ["xref\n", "0 6\n", "0000000000 65535 f \n"] ++ encWrittenEntries

/-- Lines 214–223: the trailer, declaring `/Encrypt 5 0 R` and the recorded
`xref_pos`. -/
def encTrailerChunk : String :=
  "trailer\n<<\n/Size 6\n/Root 1 0 R\n/Encrypt 5 0 R\n>>\nstartxref\n" ++
  toString encXrefPos ++ "\n%%EOF\n"

/-- All chunks of the emitted file in write order. -/
def encFileChunks : List String :=
  encHeader :: encGroups.flatten ++ encXrefChunks ++ [encTrailerChunk]

/-- The bytes of the document emitted by
`generate_unsupported_encryption_pdf`. -/
def encFile : String := String.join encFileChunks

end PdfGen

namespace PdfGen

/-! ## `generate_multipage_test_pdf.py` — `generate_page_content` (lines 39–103)
and `create_pdf` (lines 106–169)

`create_pdf` builds a list of reportlab flowables: a title `Paragraph`, a
`Spacer`, a subtitle `Paragraph` (which embeds `datetime.now()`), a
`PageBreak`, then for each `page_num` in `1..num_pages` a content
`Paragraph` followed by a `PageBreak` except after the last.  Rendering is
modelled ideally: each flowable fits on the page it starts on and every
`PageBreak` starts a new page, so the physical pages are the segments of
the flowable list between page breaks. -/

inductive Flowable
  | para (text : String)
  | spacer
  | pageBreak
deriving DecidableEq, Repr

/-- Lines 41–62: the twenty topics. -/
def mpTopics : List String :=
  ["Artificial Intelligence and Machine Learning", "Cloud Computing Architecture",
   "Database Design Patterns", "Web Development Best Practices",
   "Cybersecurity Fundamentals", "Software Testing Strategies",
   "Agile Project Management", "Data Science and Analytics",
   "Mobile Application Development", "DevOps and CI/CD Pipelines",
   "Microservices Architecture", "Blockchain Technology",
   "Internet of Things (IoT)", "Virtual and Augmented Reality",
   "Quantum Computing Basics", "Natural Language Processing",
   "Computer Vision Applications", "Distributed Systems Design",
   "API Design and Documentation", "Performance Optimization Techniques"]

/-- Python `f"{n:03d}"`. -/
def fmt3 (n : Nat) : String := fmtPad 3 n

/-- Lines 64–103: `generate_page_content(page_num)` — the f-string with
`topic = topics[page_num % len(topics)]`, the `PAGE-{page_num:03d}`
identifiers, `MARKER-{page_num * 100}` and unique id `page_num * 999`. -/
def generatePageContent (pageNum : Nat) : String :=
  let topic := mpTopics.getD (pageNum % mpTopics.length) ""
  "\n    <b>Chapter " ++ toString pageNum ++ ": " ++ topic ++ "</b><br/><br/>\n\n    This is page " ++ toString pageNum ++ " of the test document. Each page contains unique and\n    identifiable content to verify that page-aware file processors correctly\n    extract and separate content by page boundaries.<br/><br/>\n\n    <b>Page Identifier: " ++ ("PAGE-" ++ fmt3 pageNum) ++ "</b><br/><br/>\n\n    On this page, we discuss " ++ topic ++ ". This topic is essential for understanding\n    modern software development practices and technologies. The content here is\n    designed to be distinct from other pages, making it easy to verify that\n    extraction tools properly maintain page boundaries.<br/><br/>\n\n    Key points for page " ++ toString pageNum ++ ":<br/>\n    • Point A" ++ toString pageNum ++ ": First important concept<br/>\n    • Point B" ++ toString pageNum ++ ": Second critical idea<br/>\n    • Point C" ++ toString pageNum ++ ": Third essential principle<br/><br/>\n\n    Lorem ipsum dolor sit amet, consectetur adipiscing elit. Sed do eiusmod\n    tempor incididunt ut labore et dolore magna aliqua. Ut enim ad minim veniam,\n    quis nostrud exercitation ullamco laboris nisi ut aliquip ex ea commodo\n    consequat. Page " ++ toString pageNum ++ " contains this unique marker: MARKER-" ++ toString (pageNum * 100) ++ ".<br/><br/>\n\n    Duis aute irure dolor in reprehenderit in voluptate velit esse cillum dolore\n    eu fugiat nulla pariatur. Excepteur sint occaecat cupidatat non proident,\n    sunt in culpa qui officia deserunt mollit anim id est laborum. Remember, this\n    is page " ++ toString pageNum ++ ", distinguished by its unique identifier PAGE-" ++ fmt3 pageNum ++ ".<br/><br/>\n\n    <b>Summary for Page " ++ toString pageNum ++ ":</b><br/>\n    This page covered fundamental aspects of " ++ topic ++ ". When extracting this\n    document, tools should clearly indicate that this content belongs to page\n    " ++ toString pageNum ++ ", separate from pages " ++ toString (pageNum - 1) ++ " and " ++ toString (pageNum + 1) ++ ".<br/><br/>\n\n    <i>End of Page " ++ toString pageNum ++ " - Unique ID: " ++ toString (pageNum * 999) ++ "</i>\n    "

/-- Lines 140–143: the title paragraph's text. -/
def mpTitleText : String := "Test Document for Page-Aware File Processing"

/-- Lines 147–152: the subtitle paragraph's text —
`f"Generated on {datetime.now().strftime('%Y-%m-%d %H:%M:%S')}<br/>..."`.
The wall-clock reading is an explicit parameter. -/
def mpSubtitleText (timestamp : String) (numPages : Nat) : String :=
  "Generated on " ++ timestamp ++ "<br/>" ++ "Total Pages: " ++ toString numPages ++
  "<br/><br/>" ++ "This document contains unique content on each page to test<br/>" ++
  "page-aware extraction capabilities of file processors."

/-- Lines 159–166: the content loop from page `k` up to `n` — append the
page's paragraph, then a page break iff `k < n`. -/
def mpContentFrom (k n : Nat) : List Flowable :=
  if h : k ≤ n then
    Flowable.para (generatePageContent k) ::
      (if k < n then Flowable.pageBreak :: mpContentFrom (k + 1) n else [])
  else []
termination_by n + 1 - k

/-- Lines 139–166: the full flowable list built by `create_pdf`:
title, spacer, subtitle, page break, then the content pages. -/
def mpElements (numPages : Nat) (timestamp : String) : List Flowable :=
  Flowable.para mpTitleText :: Flowable.spacer ::
    Flowable.para (mpSubtitleText timestamp numPages) :: Flowable.pageBreak ::
    mpContentFrom 1 numPages

/-- Prepend a flowable to the first page of a page list. -/
def consHead (f : Flowable) : List (List Flowable) → List (List Flowable)
  | [] => [[f]]
  | p :: ps => (f :: p) :: ps

/-- Ideal rendering: the physical pages are the segments of the flowable
list split at each `PageBreak` (each flowable fits on its page). -/
def pagesOf : List Flowable → List (List Flowable)
  | [] => [[]]
  | Flowable.pageBreak :: rest => [] :: pagesOf rest
  | Flowable.para s :: rest => consHead (Flowable.para s) (pagesOf rest)
  | Flowable.spacer :: rest => consHead Flowable.spacer (pagesOf rest)

end PdfGen

namespace PdfGen

/-! ## The `main` entry points — parameter validation and overwrite protection

Each `main` is modelled as a control-flow function from the validated
parameter, whether the output path already exists, and the `input()`
response, to the action taken.  The constructors are ordered as the code
is: a parameter rejection happens before the existence check, which
happens before any write, so a rejected run writes nothing and an aborted
run leaves the existing file untouched. -/

/-- Outcome of a `main` run: reject the parameters and `sys.exit(1)` with a
message on stderr; print `"Aborted."` and `sys.exit(0)` without writing; or
reach the generator call that creates/overwrites the file. -/
inductive MainResult
  | invalidParam
  | abortedOverwrite
  | wrote
deriving DecidableEq, Repr

/-- The process exit status of each outcome (`sys.exit(1)` for rejected
parameters, `sys.exit(0)` on declined overwrite, 0 on success). -/
def MainResult.exitCode : MainResult → Nat
  | invalidParam => 1
  | abortedOverwrite => 0
  | wrote => 0

/-- Lines 280–281 of `generate_lorem_pdf.py` (and identically lines 176–177
of `generate_large_pdf_binary.py`, lines 313–314 of
`generate_corrupted_pdf.py`): `response.lower() not in ['y', 'yes']` aborts;
on empty input (the prompt default `(y/N)`) the run aborts. -/
def isAffirmative (response : String) : Bool :=
  pyLower response == "y" || pyLower response == "yes"

/-- `main` of `generate_lorem_pdf.py` (lines 269–286): reject
`word_count <= 0` and `word_count > 1000000`, then prompt if the file
exists, then write. -/
def loremMainFlow (wordCount : Int) (fileExists : Bool) (response : String) : MainResult :=
  if wordCount ≤ 0 then .invalidParam
  else if wordCount > 1000000 then .invalidParam
  else if fileExists && !(isAffirmative response) then .abortedOverwrite
  else .wrote

/-- `main` of `generate_large_pdf_binary.py` (lines 165–182): reject
`size <= 0` and `size > 10000`, then prompt if the file exists, then
write. -/
def lbMainFlow (sizeMb : Int) (fileExists : Bool) (response : String) : MainResult :=
  if sizeMb ≤ 0 then .invalidParam
  else if sizeMb > 10000 then .invalidParam
  else if fileExists && !(isAffirmative response) then .abortedOverwrite
  else .wrote

/-- `main` of `generate_corrupted_pdf.py` (lines 311–331): no count
parameter; prompt if the file exists, then write the selected variant. -/
def corruptedMainFlow (fileExists : Bool) (response : String) : MainResult :=
  if fileExists && !(isAffirmative response) then .abortedOverwrite
  else .wrote

/-- `main` of `generate_multipage_test_pdf.py` (lines 203–215): reject
`pages < 1`, then create the parent directory and write.  The script has NO
existence check and NO overwrite prompt, so the existing-file flag and any
response are ignored. -/
def mpMainFlow (pages : Int) (fileExists : Bool) (response : String) : MainResult :=
  if pages < 1 then .invalidParam
  else .wrote

end PdfGen

namespace PdfGen

/-! ## Claims -/

theorem loremEntry_at (lines : List String) (i : Nat) (h1 : 1 ≤ i)
    (h2 : i ≤ loremNumObjs lines) :
    (loremXrefChunks lines)[2 + i]? = some (xrefEntry (loremObjPos lines i)) := by
  rw [loremXrefChunks, List.getElem?_append,
    if_neg (by simp only [List.length_cons, List.length_nil]; omega)]
  simp only [List.length_cons, List.length_nil]
  rw [show 2 + i - 3 = i - 1 from by omega, List.getElem?_map,
    List.getElem?_range (by omega : i - 1 < loremNumObjs lines), Option.map_some']
  rw [show i - 1 + 1 = i from by omega]

theorem lbEntry_at (i : Nat) (h1 : 1 ≤ i) (h2 : i ≤ 4) :
    lbXrefChunks[2 + i]? = some (xrefEntry (lbObjPos i)) := by
  rw [lbXrefChunks, List.getElem?_append,
    if_neg (by simp only [List.length_cons, List.length_nil]; omega)]
  simp only [List.length_cons, List.length_nil]
  rw [show 2 + i - 3 = i - 1 from by omega, List.getElem?_map,
    List.getElem?_range (by omega : i - 1 < 4), Option.map_some']
  rw [show i - 1 + 1 = i from by omega]

/-- **C1**: For every document emitted by the lorem generator
(`create_pdf_with_text`, for any wrapped-lines input) and the large-binary
generator (`create_large_pdf_binary`, for any accepted size), and every
object number `i` from 1 to the object count: the file splits at the offset
recorded in `obj_positions[i]` into a prefix of exactly that many bytes
followed by object `i`'s introducer line, the index-table entry written for
object `i` is the 10-digit rendering of exactly that offset, and the file
likewise splits at the recorded `xref_pos` into a prefix of that many bytes
followed by the `xref` keyword, with the decimal number printed after
`startxref` being the rendering of that same position. -/
theorem c1_xref_offsets_exact (lines : List String) (S i : Nat)
    (hS : 1 ≤ S) (h1 : 1 ≤ i) :
    (i ≤ loremNumObjs lines →
      (∃ pre rest : String, loremFile lines = pre ++ (objIntro i ++ rest) ∧
        bsize pre = loremObjPos lines i) ∧
      (loremXrefChunks lines)[2 + i]? = some (xrefEntry (loremObjPos lines i))) ∧
    (∃ pre rest : String, loremFile lines = pre ++ ("xref\n" ++ rest) ∧
      bsize pre = loremXrefPos lines) ∧
    (∃ pre2 : String, loremFile lines = pre2 ++ ("startxref\n" ++
      (toString (loremXrefPos lines) ++ "\n%%EOF\n"))) ∧
    (i ≤ 4 →
      (∃ pre rest : String, lbFile S = pre ++ (objIntro i ++ rest) ∧
        bsize pre = lbObjPos i) ∧
      lbXrefChunks[2 + i]? = some (xrefEntry (lbObjPos i))) ∧
    (∃ pre rest : String, lbFile S = pre ++ ("xref\n" ++ rest) ∧
      bsize pre = lbXrefPos S) ∧
    (∃ pre2 : String, lbFile S = pre2 ++ ("startxref\n" ++
      (toString (lbXrefPos S) ++ "\n%%EOF\n"))) := by
  refine ⟨fun h2 => ⟨loremFile_decomp_at lines i h1 h2, loremEntry_at lines i h1 h2⟩,
    ?_, loremFile_startxref lines,
    fun h2 => ⟨lbFile_decomp_at S i h1 h2, lbEntry_at i h1 h2⟩,
    ?_, lbFile_startxref S⟩
  · obtain ⟨rest, heq, hsize⟩ := loremFile_xref_decomp lines
    exact ⟨_, rest, heq, hsize⟩
  · obtain ⟨rest, heq, hsize⟩ := lbFile_xref_decomp S
    exact ⟨_, rest, heq, hsize⟩

/-- Witness for C1 at `lines = ["Hello"]`, `S = 1`, `i = 1`. -/
theorem c1_xref_offsets_exact_witness :
    (∃ pre rest : String, loremFile ["Hello"] = pre ++ (objIntro 1 ++ rest) ∧
      bsize pre = loremObjPos ["Hello"] 1) ∧
    (∃ pre rest : String, lbFile 1 = pre ++ (objIntro 1 ++ rest) ∧
      bsize pre = lbObjPos 1) :=
  ⟨((c1_xref_offsets_exact ["Hello"] 1 1 (by decide) (by decide)).1 (by decide)).1,
   ((c1_xref_offsets_exact ["Hello"] 1 1 (by decide) (by decide)).2.2.2.1 (by decide)).1⟩

end PdfGen

namespace PdfGen

/-- **C2**: For the documents emitted by the lorem and large-binary
generators, the index table is the keyword line `xref`, the header line
`0 <N+1>`, the fixed free-head entry `0000000000 65535 f ` plus newline,
then one entry per object in ascending object-number order; each entry is a
zero-padded 10-digit decimal offset, a space, the zero-padded 5-digit
generation `00000`, a space, the in-use flag `n`, a space, and a newline —
20 bytes in total.  (The 10-digit width of the offset field requires the
offset to fit in ten digits, which the validated parameter ranges
guarantee; it is taken as a hypothesis on the lorem side and holds outright
for the large-binary generator, whose recorded offsets precede the
padding.) -/
theorem c2_xref_table_format (lines : List String)
    (hoff : ∀ j < loremNumObjs lines, loremObjPos lines (j + 1) < 10 ^ 10) :
    String.join (loremXrefChunks lines) =
      "xref\n" ++ ("0 " ++ toString (loremNumObjs lines + 1) ++ "\n" ++
        ("0000000000 65535 f \n" ++
          String.join ((List.range (loremNumObjs lines)).map
            (fun j => xrefEntry (loremObjPos lines (j + 1)))))) ∧
    (∀ i, 1 ≤ i → i ≤ loremNumObjs lines →
      bsize (xrefEntry (loremObjPos lines i)) = 20 ∧
      (fmtPad 10 (loremObjPos lines i)).length = 10 ∧
      xrefEntry (loremObjPos lines i) = fmtPad 10 (loremObjPos lines i) ++
        (" " ++ ("00000" ++ (" " ++ ("n" ++ (" " ++ "\n")))))) ∧
    String.join lbXrefChunks =
      "xref\n" ++ ("0 5\n" ++ ("0000000000 65535 f \n" ++
        String.join ((List.range 4).map (fun j => xrefEntry (lbObjPos (j + 1)))))) ∧
    (∀ i, 1 ≤ i → i ≤ 4 →
      bsize (xrefEntry (lbObjPos i)) = 20 ∧ (fmtPad 10 (lbObjPos i)).length = 10) := by
  have hsplit : (" 00000 n \n" : String) =
      " " ++ ("00000" ++ (" " ++ ("n" ++ (" " ++ "\n")))) := by decide
  refine ⟨?_, ?_, ?_, ?_⟩
  · rw [loremXrefChunks]
    rw [show (["xref\n", "0 " ++ toString (loremNumObjs lines + 1) ++ "\n",
        "0000000000 65535 f \n"] : List String) ++
        (List.range (loremNumObjs lines)).map
          (fun j => xrefEntry (loremObjPos lines (j + 1))) =
        "xref\n" :: ("0 " ++ toString (loremNumObjs lines + 1) ++ "\n") ::
        "0000000000 65535 f \n" ::
        (List.range (loremNumObjs lines)).map
          (fun j => xrefEntry (loremObjPos lines (j + 1))) from rfl]
    rw [join_cons, join_cons, join_cons]
  · intro i h1 h2
    have hofi : loremObjPos lines i < 10 ^ 10 := by
      have := hoff (i - 1) (by omega)
      rw [show i - 1 + 1 = i from by omega] at this
      exact this
    obtain ⟨hb, hl⟩ := bsize_fmtPad (by norm_num : 1 ≤ 10) hofi
    refine ⟨?_, hl, ?_⟩
    · rw [xrefEntry, bsize_append, hb]
      rw [show bsize " 00000 n \n" = 10 from by decide]
    · rw [xrefEntry, hsplit]
  · rw [lbXrefChunks]
    rw [show (["xref\n", "0 5\n", "0000000000 65535 f \n"] : List String) ++
        (List.range 4).map (fun j => xrefEntry (lbObjPos (j + 1))) =
        "xref\n" :: "0 5\n" :: "0000000000 65535 f \n" ::
        (List.range 4).map (fun j => xrefEntry (lbObjPos (j + 1))) from rfl]
    rw [join_cons, join_cons, join_cons]
  · intro i h1 h2
    interval_cases i
    · exact ⟨by decide, by decide⟩
    · exact ⟨by decide, by decide⟩
    · exact ⟨by decide, by decide⟩
    · exact ⟨by decide, by decide⟩

/-- Witness for C2 at `lines = ["Hello"]`: the ten-digit bound on the four
recorded offsets holds and the format facts follow. -/
theorem c2_xref_table_format_witness :
    (∀ j < loremNumObjs ["Hello"], loremObjPos ["Hello"] (j + 1) < 10 ^ 10) ∧
    (∀ i, 1 ≤ i → i ≤ loremNumObjs ["Hello"] →
      bsize (xrefEntry (loremObjPos ["Hello"] i)) = 20 ∧
      (fmtPad 10 (loremObjPos ["Hello"] i)).length = 10 ∧
      xrefEntry (loremObjPos ["Hello"] i) = fmtPad 10 (loremObjPos ["Hello"] i) ++
        (" " ++ ("00000" ++ (" " ++ ("n" ++ (" " ++ "\n")))))) :=
  ⟨by decide, (c2_xref_table_format ["Hello"] (by decide)).2.1⟩

end PdfGen

namespace PdfGen

/-- **C3** (code bug): the `unsupported_encryption` variant is NOT a valid
document apart from its encryption dictionary.  The script hardcodes the
index-table entries (offsets 9, 68, 135, 369, 478), but the actual byte
positions of the introducer lines of objects 1–5 in the emitted file are
9, 58, 115, 320 and 420: only object 1's entry is correct, the entries for
objects 2–5 do not match the file.  Exhibited here for object 2: the file
splits at byte 58 into a prefix followed by `2 0 obj`, while the entry
written for object 2 is the one for offset 68. -/
theorem c3_unsupported_encryption_offsets_bug :
    (∃ rest : String, encFile = (encHeader ++ encObj1) ++ (objIntro 2 ++ rest)) ∧
    bsize (encHeader ++ encObj1) = 58 ∧
    encObjPos 1 = 9 ∧ encObjPos 2 = 58 ∧ encObjPos 3 = 115 ∧
    encObjPos 4 = 320 ∧ encObjPos 5 = 420 ∧
    encWrittenEntries = [xrefEntry 9, xrefEntry 68, xrefEntry 135,
      xrefEntry 369, xrefEntry 478] ∧
    encXrefChunks[4]? = some (xrefEntry 68) ∧
    xrefEntry 68 ≠ xrefEntry (encObjPos 2) := by
  refine ⟨⟨"<<\n/Type /Pages\n/Kids [3 0 R]\n/Count 1\n>>\nendobj\n" ++
      (encObj3 ++ ((objIntro 4 ++ "<<\n/Length " ++ toString (bsize encContent) ++
        "\n>>\nstream\n") ++ (encContent ++ ("endstream\nendobj\n" ++ (encObj5 ++
        (String.join encXrefChunks ++ encTrailerChunk)))))), ?_⟩,
    by decide, by decide, by decide, by decide, by decide, by decide,
    by decide, by decide, by decide⟩
  rw [show encFile = String.join encFileChunks from rfl]
  rw [show encFileChunks = encHeader :: encObj1 :: encObj2 :: encObj3 ::
    (objIntro 4 ++ "<<\n/Length " ++ toString (bsize encContent) ++ "\n>>\nstream\n") ::
    encContent :: "endstream\nendobj\n" :: encObj5 ::
    (encXrefChunks ++ [encTrailerChunk]) from rfl]
  rw [join_cons, join_cons, join_cons, join_cons, join_cons, join_cons, join_cons,
    join_cons, join_append]
  rw [show String.join [encTrailerChunk] = encTrailerChunk from by
    rw [join_cons, join_nil, String.append_empty]]
  rw [show encObj2 = objIntro 2 ++ "<<\n/Type /Pages\n/Kids [3 0 R]\n/Count 1\n>>\nendobj\n"
    from rfl]
  simp only [String.append_assoc]

end PdfGen

namespace PdfGen

/-- **C4** (counterexample): two runs of the lorem generator with identical
parameters (`word_count = 1`, same filename) need not produce byte-identical
files — the script never seeds the module-level `random` generator, so the
ambient randomness differs between runs.  With a first `random.choice`
outcome of 0 the file contains `(Lorem.)`, with 1 it contains `(Ipsum.)`. -/
theorem c4_lorem_not_deterministic_counterexample :
    createPdfWithText 1 ⟨[0], [], []⟩ ≠ createPdfWithText 1 ⟨[1], [], []⟩ := by
  decide

/-- **C4** (amended): generators that consume no ambient state are
byte-identical across runs with the same parameters — the truncated
corruption variant's output is the fixed byte string below (and the
large-binary and unsupported-encryption outputs are likewise fixed
functions of their parameters); the lorem generator (unseeded `random`) and
the multipage generator (embedded `datetime.now()` timestamp) are not. -/
theorem c4_deterministic_generators_amended :
    truncatedFile =
      "%PDF-1.4\n1 0 obj\n<<\n/Type /Catalog\n/Pages 2 0 R\n>>\nendobj\n2 0 obj\n<<\n/Type /Pages\n/Kids [3 0 R]\n" ∧
    mpSubtitleText "2025-01-01 00:00:00" 3 ≠ mpSubtitleText "2025-01-01 00:00:01" 3 := by
  constructor
  · decide
  · decide

end PdfGen

namespace PdfGen

/-- **C5** (counterexample): the multipage generator does not prompt before
overwriting — with an existing output file and the response `"n"` its `main`
still reaches the write, instead of exiting 0 with the file unchanged. -/
theorem c5_multipage_overwrites_counterexample :
    mpMainFlow 5 true "n" = MainResult.wrote := rfl

/-- **C5** (amended): the lorem, large-binary and corrupted generators prompt
when the output path exists, and any response whose lowercasing is not `y`
or `yes` — including the empty default — aborts with exit status 0 before
the generator call, leaving the existing file's bytes unchanged; the
multipage generator has no such check. -/
theorem c5_overwrite_prompt_amended (wordCount sizeMb : Int) (response : String)
    (hw1 : 1 ≤ wordCount) (hw2 : wordCount ≤ 1000000)
    (hs1 : 1 ≤ sizeMb) (hs2 : sizeMb ≤ 10000)
    (hr : isAffirmative response = false) :
    loremMainFlow wordCount true response = MainResult.abortedOverwrite ∧
    (loremMainFlow wordCount true response).exitCode = 0 ∧
    lbMainFlow sizeMb true response = MainResult.abortedOverwrite ∧
    (lbMainFlow sizeMb true response).exitCode = 0 ∧
    corruptedMainFlow true response = MainResult.abortedOverwrite ∧
    (corruptedMainFlow true response).exitCode = 0 ∧
    isAffirmative "" = false := by
  have hlorem : loremMainFlow wordCount true response = MainResult.abortedOverwrite := by
    rw [loremMainFlow, if_neg (by omega), if_neg (by omega)]
    simp [hr]
  have hlb : lbMainFlow sizeMb true response = MainResult.abortedOverwrite := by
    rw [lbMainFlow, if_neg (by omega), if_neg (by omega)]
    simp [hr]
  have hcor : corruptedMainFlow true response = MainResult.abortedOverwrite := by
    rw [corruptedMainFlow]
    simp [hr]
  exact ⟨hlorem, by rw [hlorem]; rfl, hlb, by rw [hlb]; rfl, hcor, by rw [hcor]; rfl,
    by decide⟩

/-- Witness for the amended C5 at `word_count = 5`, `size = 5`,
`response = "n"`. -/
theorem c5_overwrite_prompt_amended_witness :
    loremMainFlow 5 true "n" = MainResult.abortedOverwrite ∧
    (loremMainFlow 5 true "n").exitCode = 0 ∧
    lbMainFlow 5 true "n" = MainResult.abortedOverwrite ∧
    (lbMainFlow 5 true "n").exitCode = 0 ∧
    corruptedMainFlow true "n" = MainResult.abortedOverwrite ∧
    (corruptedMainFlow true "n").exitCode = 0 ∧
    isAffirmative "" = false :=
  c5_overwrite_prompt_amended 5 5 "n" (by decide) (by decide) (by decide) (by decide)
    (by decide)

/-- **C6**: for each generator taking a count/size parameter (word count,
target size, page count), a value of 0 or less is rejected before any file
is opened, with exit status 1 and a message on stderr, while the value 1
passes validation and reaches the write. -/
theorem c6_count_validation (v : Int) (hv : v ≤ 0) (fileExists : Bool) (response : String) :
    loremMainFlow v fileExists response = MainResult.invalidParam ∧
    (loremMainFlow v fileExists response).exitCode = 1 ∧
    lbMainFlow v fileExists response = MainResult.invalidParam ∧
    (lbMainFlow v fileExists response).exitCode = 1 ∧
    mpMainFlow v fileExists response = MainResult.invalidParam ∧
    (mpMainFlow v fileExists response).exitCode = 1 ∧
    loremMainFlow 1 false response = MainResult.wrote ∧
    lbMainFlow 1 false response = MainResult.wrote ∧
    mpMainFlow 1 false response = MainResult.wrote := by
  have h1 : loremMainFlow v fileExists response = MainResult.invalidParam := by
    rw [loremMainFlow, if_pos (by omega)]
  have h2 : lbMainFlow v fileExists response = MainResult.invalidParam := by
    rw [lbMainFlow, if_pos (by omega)]
  have h3 : mpMainFlow v fileExists response = MainResult.invalidParam := by
    rw [mpMainFlow, if_pos (by omega)]
  refine ⟨h1, by rw [h1]; rfl, h2, by rw [h2]; rfl, h3, by rw [h3]; rfl, ?_, ?_, ?_⟩
  · rw [loremMainFlow, if_neg (by omega), if_neg (by omega)]
    simp
  · rw [lbMainFlow, if_neg (by omega), if_neg (by omega)]
    simp
  · rw [mpMainFlow, if_neg (by omega)]

/-- Witness for C6 at the boundary value 0. -/
theorem c6_count_validation_witness :
    loremMainFlow 0 false "" = MainResult.invalidParam ∧
    loremMainFlow 1 false "" = MainResult.wrote ∧
    mpMainFlow 0 false "" = MainResult.invalidParam ∧
    mpMainFlow 1 false "" = MainResult.wrote := by
  obtain ⟨a, _, _, _, c, _, d, _, e⟩ := c6_count_validation 0 (by decide) false ""
  exact ⟨a, d, c, e⟩

end PdfGen

namespace PdfGen

/-- **C7**: for every accepted target size `S` (in MB), the emitted
large-binary file's byte length equals `S*1024*1024` minus the fixed
200-byte footer reservation plus the actual footer length (cross-reference
table, trailer, startxref line and EOF marker), hence differs from the
requested `S*1024*1024` bytes by at most 200 (the file is in fact slightly
short, since the actual footer is smaller than the reservation). -/
theorem c7_large_binary_size (S : Nat) (h1 : 1 ≤ S) (h2 : S ≤ 10000) :
    bsize (lbFile S) + 200 = S * 1024 * 1024 + lbFooterSize S ∧
    bsize (lbFile S) ≤ S * 1024 * 1024 ∧
    S * 1024 * 1024 - bsize (lbFile S) ≤ 200 := by
  have hS : 1048576 ≤ S * 1024 * 1024 := by
    calc 1048576 = 1 * 1024 * 1024 := by norm_num
    _ ≤ S * 1024 * 1024 := by
      apply Nat.mul_le_mul_right
      apply Nat.mul_le_mul_right
      exact h1
  have hfile : bsize (lbFile S) =
      lbCurrentPos + chunksSize (lbPadding S) + lbFooterSize S := by
    rw [lbFile, bsize_join, lbFileChunks, chunksSize_append, chunksSize_append,
      chunksSize_append, chunksSize_cons, lbFooterSize, chunksSize_append, lbCurrentPos]
    omega
  have hpad := lbPadding_size S h1
  have hfoot : lbFooterSize S = 160 + bsize (toString (lbXrefPos S)) := by
    rw [lbFooterSize, chunksSize_append,
      show chunksSize lbXrefChunks = 109 from by decide, lbTrailerChunks,
      chunksSize_cons, chunksSize_cons, chunksSize_cons, chunksSize_cons,
      show chunksSize [] = 0 from rfl,
      show bsize "trailer\n<<\n/Size 5\n/Root 1 0 R\n>>\n" = 34 from by decide,
      show bsize "startxref\n" = 10 from by decide,
      show bsize "\n%%EOF\n" = 7 from by decide]
    omega
  have hd : bsize (toString (lbXrefPos S)) ≤ 11 := by
    rw [toString_nat, bsize_eq_length_of_digits (repr_data_digits _)]
    apply repr_length_le (by norm_num : (1:Nat) ≤ 11)
    rw [lbXrefPos_eq S h1]
    have hup : S * 1024 * 1024 ≤ 10000 * 1024 * 1024 := by
      apply Nat.mul_le_mul_right
      apply Nat.mul_le_mul_right
      exact h2
    have h10 : (10:Nat) ^ 11 = 100000000000 := by norm_num
    omega
  have hcur : lbCurrentPos = 462 := by decide
  refine ⟨by omega, by omega, by omega⟩

/-- Witness for C7 at `S = 1`. -/
theorem c7_large_binary_size_witness :
    bsize (lbFile 1) + 200 = 1 * 1024 * 1024 + lbFooterSize 1 ∧
    bsize (lbFile 1) ≤ 1 * 1024 * 1024 ∧
    1 * 1024 * 1024 - bsize (lbFile 1) ≤ 200 :=
  c7_large_binary_size 1 (by decide) (by decide)

end PdfGen

namespace PdfGen

/-- The escaping rule as the specification states it, per character:
a backslash becomes a backslash-backslash pair, and each parenthesis is
prefixed with a backslash. -/
def escapeSpecChar (c : Char) : List Char :=
  if c = '\\' then ['\\', '\\']
  else if c = '(' then ['\\', '(']
  else if c = ')' then ['\\', ')']
  else [c]

theorem escape_char_cases (c : Char) :
    ((if c = '\\' then ("\\\\" : String).data else [c]).flatMap
      (fun x => (if x = '(' then ("\\(" : String).data else [x]).flatMap
        (fun d => if d = ')' then ("\\)" : String).data else [d]))) = escapeSpecChar c := by
  by_cases h1 : c = '\\'
  · subst h1; decide
  · by_cases h2 : c = '('
    · subst h2; decide
    · by_cases h3 : c = ')'
      · subst h3; decide
      · simp [escapeSpecChar, h1, h2, h3]

/-- **C8**: every text line entering a content stream is escaped by the three
sequential `str.replace` passes so that, character by character, each
backslash of the original line becomes a backslash-backslash pair and each
`(` and `)` is prefixed with a backslash — the composition of the three
passes equals the single-pass per-character escape. -/
theorem c8_escape_rule (line : String) :
    escapeLine line = String.mk (line.data.flatMap escapeSpecChar) := by
  rw [escapeLine, replaceChar, replaceChar, replaceChar]
  rw [show (String.mk (line.data.flatMap
      (fun d => if d = '\\' then ("\\\\" : String).data else [d]))).data =
    line.data.flatMap (fun d => if d = '\\' then ("\\\\" : String).data else [d]) from rfl]
  rw [show ∀ l : List Char, (String.mk l).data = l from fun _ => rfl]
  rw [List.flatMap_assoc, List.flatMap_assoc]
  congr 1
  apply List.flatMap_congr
  intro c _
  exact escape_char_cases c

end PdfGen

namespace PdfGen

theorem flatten_slices (lpp : Nat) (hpos : 0 < lpp) :
    ∀ (n : Nat) (L : List String), L.length ≤ n * lpp →
      ((List.range n).map (pageSliceP lpp L)).flatten = L := by
  intro n
  induction n with
  | zero =>
    intro L h
    simp only [Nat.zero_mul, Nat.le_zero] at h
    rw [List.eq_nil_of_length_eq_zero h]
    rfl
  | succ n ih =>
    intro L h
    rw [List.range_succ_eq_map, List.map_cons, List.map_map, List.flatten_cons]
    have h0 : pageSliceP lpp L 0 = L.take lpp := by
      simp [pageSliceP]
    have hshift : (List.range n).map (pageSliceP lpp L ∘ Nat.succ) =
        (List.range n).map (pageSliceP lpp (L.drop lpp)) := by
      apply List.map_congr_left
      intro k _
      show pageSliceP lpp L (k + 1) = pageSliceP lpp (L.drop lpp) k
      rw [pageSliceP, pageSliceP, List.drop_drop]
      congr 1
      ring
    rw [h0, hshift, ih (L.drop lpp) (by
      rw [List.length_drop]
      have : (n + 1) * lpp = n * lpp + lpp := by ring_nf
      omega)]
    exact List.take_append_drop lpp L

/-- **C9**: for every list of wrapped lines and every positive
`lines_per_page`, the page count is `max 1 ⌈len/lpp⌉` (line 103); every page
receives at most `lpp` consecutive lines, every page but the last receives
exactly `lpp`, an empty line list still yields exactly one page, and the
pages concatenate back to the original line list. -/
theorem c9_pagination (L : List String) (lpp : Nat) (hpos : 0 < lpp) :
    totalPagesP lpp L = max 1 ((L.length + lpp - 1) / lpp) ∧
    (∀ k, k < totalPagesP lpp L → (pageSliceP lpp L k).length ≤ lpp) ∧
    (∀ k, k + 1 < totalPagesP lpp L → (pageSliceP lpp L k).length = lpp) ∧
    (L = [] → totalPagesP lpp L = 1) ∧
    ((List.range (totalPagesP lpp L)).map (pageSliceP lpp L)).flatten = L := by
  have hdm := Nat.div_add_mod (L.length + lpp - 1) lpp
  have hmlt : (L.length + lpp - 1) % lpp < lpp := Nat.mod_lt _ hpos
  refine ⟨rfl, ?_, ?_, ?_, ?_⟩
  · intro k hk
    rw [pageSliceP, List.length_take]
    omega
  · intro k hk
    have hk2 : k + 2 ≤ (L.length + lpp - 1) / lpp := by
      rw [totalPagesP] at hk
      omega
    have hmul := Nat.mul_le_mul_right lpp hk2
    have hdiv := Nat.div_mul_le_self (L.length + lpp - 1) lpp
    rw [pageSliceP, List.length_take, List.length_drop]
    rw [show (k + 2) * lpp = k * lpp + 2 * lpp from by ring_nf] at hmul
    generalize k * lpp = a at hmul ⊢
    generalize ((L.length + lpp - 1) / lpp) * lpp = b at hmul hdiv
    omega
  · intro hL
    rw [totalPagesP, hL]
    simp only [List.length_nil, Nat.zero_add]
    rw [Nat.div_eq_of_lt (by omega)]
    decide
  · apply flatten_slices lpp hpos
    rw [totalPagesP]
    rcases Nat.lt_or_ge ((L.length + lpp - 1) / lpp) 1 with hc | hc
    · have hq0 : (L.length + lpp - 1) / lpp = 0 := Nat.lt_one_iff.mp hc
      have hx : L.length + lpp - 1 < lpp := by
        by_contra hcon
        push_neg at hcon
        have h1 := (Nat.one_le_div_iff hpos).mpr hcon
        rw [hq0] at h1
        exact absurd h1 (by norm_num)
      rw [hq0, show max 1 0 = 1 from rfl, Nat.one_mul]
      clear hdm hmlt hc hq0
      omega
    · rw [Nat.max_eq_right hc, Nat.mul_comm]
      generalize hp : lpp * ((L.length + lpp - 1) / lpp) = p at hdm ⊢
      omega

/-- Witness for C9 at `L = ["a", "b", "c"]`, `lines_per_page = 2`. -/
theorem c9_pagination_witness :
    totalPagesP 2 ["a", "b", "c"] = max 1 ((3 + 2 - 1) / 2) ∧
    (∀ k, k + 1 < totalPagesP 2 ["a", "b", "c"] →
      (pageSliceP 2 ["a", "b", "c"] k).length = 2) ∧
    ((List.range (totalPagesP 2 ["a", "b", "c"])).map
      (pageSliceP 2 ["a", "b", "c"])).flatten = ["a", "b", "c"] := by
  obtain ⟨h1, _, h3, _, h5⟩ := c9_pagination ["a", "b", "c"] 2 (by decide)
  exact ⟨h1, h3, h5⟩

end PdfGen



namespace PdfGen

theorem pagesOf_para_cons (s : String) (rest : List Flowable) :
    pagesOf (Flowable.para s :: rest) = consHead (Flowable.para s) (pagesOf rest) := rfl

theorem pagesOf_spacer_cons (rest : List Flowable) :
    pagesOf (Flowable.spacer :: rest) = consHead Flowable.spacer (pagesOf rest) := rfl

theorem pagesOf_break_cons (rest : List Flowable) :
    pagesOf (Flowable.pageBreak :: rest) = [] :: pagesOf rest := rfl

theorem consHead_cons (f : Flowable) (p : List Flowable) (ps : List (List Flowable)) :
    consHead f (p :: ps) = (f :: p) :: ps := rfl

theorem pagesOf_contentFrom (n : Nat) :
    ∀ d k, 1 ≤ k → k ≤ n → n - k = d →
      pagesOf (mpContentFrom k n) =
        (List.range (n + 1 - k)).map
          (fun i => [Flowable.para (generatePageContent (k + i))]) := by
  intro d
  induction d with
  | zero =>
    intro k h1 h2 hd
    have hk : k = n := by omega
    subst hk
    rw [mpContentFrom, dif_pos (Nat.le_refl _), if_neg (by omega)]
    rw [show k + 1 - k = 1 from by omega]
    rw [show List.range 1 = [0] from rfl]
    simp [pagesOf_para_cons, pagesOf, consHead]
  | succ d ih =>
    intro k h1 h2 hd
    have hk : k < n := by omega
    rw [mpContentFrom, dif_pos (by omega), if_pos hk]
    rw [pagesOf_para_cons, pagesOf_break_cons,
      ih (k + 1) (by omega) (by omega) (by omega), consHead_cons]
    rw [show n + 1 - k = (n + 1 - (k + 1)) + 1 from by omega]
    rw [List.range_succ_eq_map, List.map_cons, List.map_map]
    rw [List.cons.injEq]
    refine ⟨by rw [Nat.add_zero], ?_⟩
    apply List.map_congr_left
    intro i _
    show [Flowable.para (generatePageContent (k + 1 + i))] = _
    rw [Function.comp_apply]
    rw [show k + 1 + i = k + (i + 1) from by omega]

/-- **C10**: for every requested page count `n ≥ 1`, the multipage generator
builds a title block (title, spacer, subtitle), then a page break, then the
`n` content paragraphs separated by `n - 1` page breaks; under the ideal
rendering the document therefore has `n + 1` physical pages, and the content
paragraph containing identifier `PAGE-00K` (for `1 ≤ K ≤ n`) is the sole
occupant of physical page `K + 1` (zero-based index `K`), not of page `K`. -/
theorem c10_title_page_shift (n : Nat) (ts : String) (h : 1 ≤ n) :
    pagesOf (mpElements n ts) =
      [Flowable.para mpTitleText, Flowable.spacer, Flowable.para (mpSubtitleText ts n)] ::
        (List.range n).map (fun i => [Flowable.para (generatePageContent (i + 1))]) ∧
    (pagesOf (mpElements n ts)).length = n + 1 ∧
    (∀ K, 1 ≤ K → K ≤ n →
      (pagesOf (mpElements n ts))[K]? =
        some [Flowable.para (generatePageContent K)] ∧
      (∃ a b : String, generatePageContent K =
        a ++ (("PAGE-" ++ fmt3 K) ++ b))) := by
  have hmain : pagesOf (mpElements n ts) =
      [Flowable.para mpTitleText, Flowable.spacer, Flowable.para (mpSubtitleText ts n)] ::
        (List.range n).map (fun i => [Flowable.para (generatePageContent (i + 1))]) := by
    rw [mpElements, pagesOf_para_cons, pagesOf_spacer_cons, pagesOf_para_cons,
      pagesOf_break_cons, pagesOf_contentFrom n (n - 1) 1 (Nat.le_refl _) h (by omega),
      show n + 1 - 1 = n from by omega]
    rw [consHead_cons, consHead_cons, consHead_cons]
    rw [List.cons.injEq]
    refine ⟨rfl, ?_⟩
    apply List.map_congr_left
    intro i _
    rw [Nat.add_comm 1 i]
  refine ⟨hmain, ?_, ?_⟩
  · rw [hmain, List.length_cons, List.length_map, List.length_range]
  · intro K hK1 hK2
    constructor
    · rw [hmain]
      match K, hK1 with
      | (j + 1), _ =>
        rw [List.getElem?_cons_succ, List.getElem?_map, List.getElem?_range (by omega),
          Option.map_some']
    · refine ⟨"\n    <b>Chapter " ++ toString K ++ ": " ++ (mpTopics.getD (K % mpTopics.length) "") ++ "</b><br/><br/>\n\n    This is page " ++ toString K ++ " of the test document. Each page contains unique and\n    identifiable content to verify that page-aware file processors correctly\n    extract and separate content by page boundaries.<br/><br/>\n\n    <b>Page Identifier: ",
        "</b><br/><br/>\n\n    On this page, we discuss " ++ (mpTopics.getD (K % mpTopics.length) "") ++ ". This topic is essential for understanding\n    modern software development practices and technologies. The content here is\n    designed to be distinct from other pages, making it easy to verify that\n    extraction tools properly maintain page boundaries.<br/><br/>\n\n    Key points for page " ++ toString K ++ ":<br/>\n    • Point A" ++ toString K ++ ": First important concept<br/>\n    • Point B" ++ toString K ++ ": Second critical idea<br/>\n    • Point C" ++ toString K ++ ": Third essential principle<br/><br/>\n\n    Lorem ipsum dolor sit amet, consectetur adipiscing elit. Sed do eiusmod\n    tempor incididunt ut labore et dolore magna aliqua. Ut enim ad minim veniam,\n    quis nostrud exercitation ullamco laboris nisi ut aliquip ex ea commodo\n    consequat. Page " ++ toString K ++ " contains this unique marker: MARKER-" ++ toString (K * 100) ++ ".<br/><br/>\n\n    Duis aute irure dolor in reprehenderit in voluptate velit esse cillum dolore\n    eu fugiat nulla pariatur. Excepteur sint occaecat cupidatat non proident,\n    sunt in culpa qui officia deserunt mollit anim id est laborum. Remember, this\n    is page " ++ toString K ++ ", distinguished by its unique identifier PAGE-" ++ fmt3 K ++ ".<br/><br/>\n\n    <b>Summary for Page " ++ toString K ++ ":</b><br/>\n    This page covered fundamental aspects of " ++ (mpTopics.getD (K % mpTopics.length) "") ++ ". When extracting this\n    document, tools should clearly indicate that this content belongs to page\n    " ++ toString K ++ ", separate from pages " ++ toString (K - 1) ++ " and " ++ toString (K + 1) ++ ".<br/><br/>\n\n    <i>End of Page " ++ toString K ++ " - Unique ID: " ++ toString (K * 999) ++ "</i>\n    ", ?_⟩
      rw [generatePageContent]
      simp only [String.append_assoc]

/-- Witness for C10 at `n = 2` pages and a fixed timestamp. -/
theorem c10_title_page_shift_witness :
    (pagesOf (mpElements 2 "2025-01-01 00:00:00")).length = 2 + 1 ∧
    (pagesOf (mpElements 2 "2025-01-01 00:00:00"))[1]? =
      some [Flowable.para (generatePageContent 1)] :=
  ⟨(c10_title_page_shift 2 "2025-01-01 00:00:00" (by decide)).2.1,
   ((c10_title_page_shift 2 "2025-01-01 00:00:00" (by decide)).2.2 1 (by decide)
      (by decide)).1⟩

end PdfGen
